import Mathlib

/-!
Shallow embedding of the connection/synchronization state machine of
`src/ArduinoIoTCloudTCP.cpp` (class `ArduinoIoTCloudTCP`).

The embedding models the fields of the class that the state machine reads and
writes (`_state`, `_lastSyncRequestTickTime`, `_mqtt_data_buf`,
`_mqtt_data_len`, `_mqtt_data_request_retransmit`, and the four topic
strings), plus the per-tick inputs read from the external collaborators
(network check, MQTT connect/subscribe/connected results, `millis()`, the
outcome of `CBOREncoder::encode`).  Observable side effects of a tick or of a
message callback (lifecycle events delivered via `execCloudEventCallback`,
`write(topic, data, length)` transmissions, `CBORDecoder::decode` invocations
and `_mqttClient.stop()` calls) are collected in an `Output` record.

The property container and the CBOR codec are external collaborators: the
result of `CBOREncoder::encode` is an input (`none` models a `CborError`,
`some data` models `CborNoError` with `bytes_encoded = data.length`), and a
`CBORDecoder::decode` call is recorded in the output together with its
`isSyncMessage` flag; the decode result is a boolean input that the source
code never inspects.  The OTA-disabled build configuration is modelled
(`OTA_ENABLED` off), which is the configuration the analyzed state-machine
claims are about.
-/

namespace ArduinoIoTCloud

/-- The `ArduinoIoTCloudTCP::State` enumeration. -/
inductive State where
  | ConnectPhy
  | SyncTime
  | ConnectMqttBroker
  | SubscribeMqttTopics
  | RequestLastValues
  | Connected
deriving DecidableEq

/-- The `ArduinoIoTCloudEvent` enumeration delivered to `execCloudEventCallback`. -/
inductive ArduinoIoTCloudEvent where
  | CONNECT
  | SYNC
  | DISCONNECT
deriving DecidableEq

/-- The fields of `ArduinoIoTCloudTCP` that the state machine reads and writes.
`mqtt_data_buf` holds the bytes stored by the `memcpy` in
`sendPropertiesToCloud` and `mqtt_data_len` mirrors `_mqtt_data_len`. -/
structure Machine where
  state : State
  lastSyncRequestTickTime : Nat
  mqtt_data_buf : List Nat
  mqtt_data_len : Nat
  mqtt_data_request_retransmit : Bool
  shadowTopicOut : String
  shadowTopicIn : String
  dataTopicOut : String
  dataTopicIn : String
deriving DecidableEq

/-- The machine as produced by the `ArduinoIoTCloudTCP` constructor followed by
`begin`, which assigns the four topic strings; the constructor initializes
`_state` to `ConnectPhy`, `_lastSyncRequestTickTime` to `0`, the data buffer to
empty, `_mqtt_data_len` to `0` and `_mqtt_data_request_retransmit` to `false`. -/
def initialMachine (sOut sIn dOut dIn : String) : Machine :=
  { state := State.ConnectPhy
    lastSyncRequestTickTime := 0
    mqtt_data_buf := []
    mqtt_data_len := 0
    mqtt_data_request_retransmit := false
    shadowTopicOut := sOut
    shadowTopicIn := sIn
    dataTopicOut := dOut
    dataTopicIn := dIn }

/-- External signals read during one call to `update()`. -/
structure TickInput where
  phyCheckConnected : Bool
  mqttConnectOk : Bool
  subscribeDataInOk : Bool
  subscribeShadowInOk : Bool
  mqttConnected : Bool
  millis : Nat
  encodeResult : Option (List Nat)

/-- Inputs of one invocation of the `handleMessage` callback: the arriving
topic and bytes, whether `CBORDecoder::decode` succeeds on them (an outcome the
source code never inspects), and the outcome of the `CBOREncoder::encode`
performed by the nested `sendPropertiesToCloud` call. -/
structure MsgInput where
  topic : String
  bytes : List Nat
  decodeOk : Bool
  encodeResult : Option (List Nat)

/-- Observable side effects of one tick or one message callback. -/
structure Output where
  events : List ArduinoIoTCloudEvent
  transmissions : List (String × List Nat)
  decodes : List Bool
  mqttStopCalls : Nat
deriving DecidableEq

/-- Output of a step with no observable side effect. -/
def emptyOutput : Output :=
  { events := [], transmissions := [], decodes := [], mqttStopCalls := 0 }

/-- The constant `TIMEOUT_FOR_LASTVALUES_SYNC` (milliseconds). -/
def TIMEOUT_FOR_LASTVALUES_SYNC : Nat := 10000

/-- Subtraction of two `unsigned long` (32-bit) values as performed by
`now - _lastSyncRequestTickTime`: wraparound modulo `2^32`. -/
def ulSub (a b : Nat) : Nat :=
  ((a % 4294967296) + 4294967296 - (b % 4294967296)) % 4294967296

/-- The fixed payload built by `ArduinoIoTCloudTCP::requestLastValue`. -/
def CBOR_REQUEST_LAST_VALUE_MSG : List Nat :=
  [0x81, 0xA2, 0x00, 0x63, 0x72, 0x3A, 0x6D, 0x03, 0x6D,
   0x67, 0x65, 0x74, 0x4C, 0x61, 0x73, 0x74, 0x56, 0x61, 0x6C, 0x75, 0x65, 0x73]

/-- The `write(_shadowTopicOut, CBOR_REQUEST_LAST_VALUE_MSG, ...)` call in
`ArduinoIoTCloudTCP::requestLastValue`. -/
def requestLastValue (m : Machine) : List (String × List Nat) :=
  [(m.shadowTopicOut, CBOR_REQUEST_LAST_VALUE_MSG)]

/-- `ArduinoIoTCloudTCP::sendPropertiesToCloud`: if the CBOR encode succeeds
(`CborNoError`) and `bytes_encoded > 0`, the encoded bytes are copied into the
retransmit buffer, `_mqtt_data_len` is set, and the payload is written to the
data-out topic; otherwise nothing happens. -/
def sendPropertiesToCloud (m : Machine) (encodeResult : Option (List Nat)) :
    Machine × List (String × List Nat) :=
  match encodeResult with
  | none => (m, [])
  | some data =>
      if 0 < data.length then
        ({ m with mqtt_data_len := data.length, mqtt_data_buf := data },
         [(m.dataTopicOut, data)])
      else
        (m, [])

/-- `ArduinoIoTCloudTCP::handle_ConnectPhy`. -/
def handle_ConnectPhy (i : TickInput) : State :=
  if i.phyCheckConnected then State.SyncTime else State.ConnectPhy

/-- `ArduinoIoTCloudTCP::handle_SyncTime`. -/
def handle_SyncTime : State :=
  State.ConnectMqttBroker

/-- `ArduinoIoTCloudTCP::handle_ConnectMqttBroker`. -/
def handle_ConnectMqttBroker (i : TickInput) : State :=
  if i.mqttConnectOk then State.SubscribeMqttTopics else State.ConnectPhy

/-- `ArduinoIoTCloudTCP::handle_SubscribeMqttTopics`: subscribe to the data-in
topic (retry in place on failure), then to the shadow-in topic when that topic
is non-empty (retry in place on failure), then emit the `CONNECT` event and
move to `RequestLastValues` when the shadow-in topic is non-empty, else to
`Connected`. -/
def handle_SubscribeMqttTopics (m : Machine) (i : TickInput) :
    State × List ArduinoIoTCloudEvent :=
  if i.subscribeDataInOk = false then
    (State.SubscribeMqttTopics, [])
  else if m.shadowTopicIn ≠ "" ∧ i.subscribeShadowInOk = false then
    (State.SubscribeMqttTopics, [])
  else if m.shadowTopicIn ≠ "" then
    (State.RequestLastValues, [ArduinoIoTCloudEvent.CONNECT])
  else
    (State.Connected, [ArduinoIoTCloudEvent.CONNECT])

/-- `ArduinoIoTCloudTCP::handle_RequestLastValues`: when
`(now - _lastSyncRequestTickTime) > TIMEOUT_FOR_LASTVALUES_SYNC` (unsigned
32-bit arithmetic), call `requestLastValue` and record `now`. -/
def handle_RequestLastValues (m : Machine) (i : TickInput) :
    Machine × List (String × List Nat) :=
  if TIMEOUT_FOR_LASTVALUES_SYNC < ulSub i.millis m.lastSyncRequestTickTime then
    ({ m with lastSyncRequestTickTime := i.millis }, requestLastValue m)
  else
    (m, [])

/-- `ArduinoIoTCloudTCP::handle_Connected` (OTA disabled): on a lost MQTT
connection, stop the client, set the retransmit flag, emit `DISCONNECT` and go
to `ConnectPhy`; otherwise resend the buffered payload when a retransmit is
pending and the stored length is positive (clearing the flag), then run
`sendPropertiesToCloud`, staying in `Connected`. -/
def handle_Connected (m : Machine) (i : TickInput) : Machine × Output :=
  if i.mqttConnected = false then
    ({ m with state := State.ConnectPhy, mqtt_data_request_retransmit := true },
     { events := [ArduinoIoTCloudEvent.DISCONNECT], transmissions := [],
       decodes := [], mqttStopCalls := 1 })
  else
    let step1 :=
      if m.mqtt_data_request_retransmit = true ∧ 0 < m.mqtt_data_len then
        ({ m with mqtt_data_request_retransmit := false },
         [(m.dataTopicOut, m.mqtt_data_buf.take m.mqtt_data_len)])
      else
        (m, ([] : List (String × List Nat)))
    let step2 := sendPropertiesToCloud step1.1 i.encodeResult
    ({ step2.1 with state := State.Connected },
     { events := [], transmissions := step1.2 ++ step2.2,
       decodes := [], mqttStopCalls := 0 })

/-- `ArduinoIoTCloudTCP::update`: dispatch one tick through the state machine. -/
def update (m : Machine) (i : TickInput) : Machine × Output :=
  match m.state with
  | State.ConnectPhy =>
      ({ m with state := handle_ConnectPhy i }, emptyOutput)
  | State.SyncTime =>
      ({ m with state := handle_SyncTime }, emptyOutput)
  | State.ConnectMqttBroker =>
      ({ m with state := handle_ConnectMqttBroker i }, emptyOutput)
  | State.SubscribeMqttTopics =>
      ({ m with state := (handle_SubscribeMqttTopics m i).1 },
       { emptyOutput with events := (handle_SubscribeMqttTopics m i).2 })
  | State.RequestLastValues =>
      ({ (handle_RequestLastValues m i).1 with state := State.RequestLastValues },
       { emptyOutput with transmissions := (handle_RequestLastValues m i).2 })
  | State.Connected =>
      handle_Connected m i

/-- `ArduinoIoTCloudTCP::handleMessage`: a message on the data-in topic is
decoded as a delta update; a message on the shadow-in topic while the machine
is in `RequestLastValues` is decoded as a full snapshot (`isSyncMessage =
true`), then `sendPropertiesToCloud` runs, the `SYNC` event is emitted and
`_state` is set to `Connected`.  The result of `CBORDecoder::decode` is never
inspected. -/
def handleMessage (m : Machine) (x : MsgInput) : Machine × Output :=
  let dataDecodes : List Bool := if m.dataTopicIn = x.topic then [false] else []
  if m.shadowTopicIn = x.topic ∧ m.state = State.RequestLastValues then
    let step1 := sendPropertiesToCloud m x.encodeResult
    ({ step1.1 with state := State.Connected },
     { events := [ArduinoIoTCloudEvent.SYNC], transmissions := step1.2,
       decodes := dataDecodes ++ [true], mqttStopCalls := 0 })
  else
    (m, { events := [], transmissions := [], decodes := dataDecodes,
          mqttStopCalls := 0 })

/-- One step of an execution: either a tick of `update` or an inbound message
dispatched to `handleMessage` by the poll of the MQTT client. -/
inductive Step where
  | tick (i : TickInput)
  | msg (x : MsgInput)

/-- Take one execution step. -/
def step (m : Machine) (s : Step) : Machine × Output :=
  match s with
  | Step.tick i => update m i
  | Step.msg x => handleMessage m x

/-- Run a list of execution steps, collecting the output of each step. -/
def run (m : Machine) : List Step → Machine × List Output
  | [] => (m, [])
  | s :: rest =>
      ((run (step m s).1 rest).1, (step m s).2 :: (run (step m s).1 rest).2)

/-- Number of `SYNC` events in a list of step outputs. -/
def countSync : List Output → Nat
  | [] => 0
  | o :: os => o.events.count ArduinoIoTCloudEvent.SYNC + countSync os

/-- Modelled from the spec: reference encoding of an unsigned integer below 24
in the compact binary map format (CBOR major type 0, immediate value). -/
def cborSmallUInt (n : Nat) : List Nat :=
  [n]

/-- Modelled from the spec: reference encoding of a text string shorter than
24 bytes in the compact binary format (CBOR major type 3: one header byte
`0x60 + length` followed by the character bytes). -/
def cborShortText (s : String) : List Nat :=
  (0x60 + s.length) :: s.data.map Char.toNat

/-- Modelled from the spec: the reference encoding of the reconciliation
request, a one-element array holding the two-entry map
`{0: "r:m", 3: "getLastValues"}` in the compact binary map format. -/
def specReconciliationRequestEncoding : List Nat :=
  0x81 :: 0xA2 ::
    (cborSmallUInt 0 ++ cborShortText "r:m" ++
     cborSmallUInt 3 ++ cborShortText "getLastValues")

/-- Session whose shadow topics are present. -/
def shadowMachine : Machine :=
  initialMachine "s-o" "s-i" "d-o" "d-i"

/-- Session whose shadow topics are absent. -/
def noShadowMachine : Machine :=
  initialMachine "" "" "d-o" "d-i"

/-- Tick on which the physical link reports connected. -/
def tickPhyOk : TickInput :=
  { phyCheckConnected := true, mqttConnectOk := false, subscribeDataInOk := false
    subscribeShadowInOk := false, mqttConnected := false, millis := 0
    encodeResult := none }

/-- Tick on which every transport signal reports failure or disconnection. -/
def tickPlain : TickInput :=
  { phyCheckConnected := false, mqttConnectOk := false, subscribeDataInOk := false
    subscribeShadowInOk := false, mqttConnected := false, millis := 0
    encodeResult := none }

/-- Tick on which the MQTT broker connect succeeds. -/
def tickBrokerOk : TickInput :=
  { tickPlain with mqttConnectOk := true }

/-- Tick on which both topic subscriptions succeed. -/
def tickSubsOk : TickInput :=
  { tickPlain with subscribeDataInOk := true, subscribeShadowInOk := true }

/-- Tick on which the MQTT client reports connected and the property encode
yields `enc`. -/
def tickConn (enc : Option (List Nat)) : TickInput :=
  { tickPlain with mqttConnected := true, encodeResult := enc }

/-- Tick observed at time `n` with every transport signal failing. -/
def tickAt (n : Nat) : TickInput :=
  { tickPlain with millis := n }

/-- Steps driving a fresh session up to the `RequestLastValues` state (shadow
topics present): physical link up, time sync, broker connect, subscriptions. -/
def reconnectPrefix : List Step :=
  [Step.tick tickPhyOk, Step.tick tickPlain, Step.tick tickBrokerOk,
   Step.tick tickSubsOk]

/-- A shadow-in message whose bytes fail to decode. -/
def malformedShadowMsg : MsgInput :=
  { topic := "s-i", bytes := [0xFF], decodeOk := false, encodeResult := some [] }

/-- Steps reaching `Connected` with shadow topics absent and no payload ever
stored, followed by a tick on which the transport reports disconnected. -/
def pendingNoPayloadTrace : List Step :=
  [Step.tick tickPhyOk, Step.tick tickPlain, Step.tick tickBrokerOk,
   Step.tick tickSubsOk, Step.tick tickPlain]

/-- Steps reaching `Connected` through the reconciliation handshake (request
sent at `millis = 20000`), transmitting the payload `[7]`, then detecting a
transport disconnection. -/
def restartNoResetTrace : List Step :=
  [Step.tick tickPhyOk, Step.tick tickPlain, Step.tick tickBrokerOk,
   Step.tick tickSubsOk, Step.tick (tickAt 20000),
   Step.msg { topic := "s-i", bytes := [], decodeOk := true, encodeResult := some [] },
   Step.tick (tickConn (some [7])), Step.tick tickPlain]

/-- Execution refuting the universal retransmission claim: the payload `[1]`
is encoded and transmitted while `Connected`, a disconnection is detected,
and during the reconnection the reconciliation response triggers a new encode
of `[2]`, which is transmitted and overwrites the retransmission buffer before
the first `Connected` tick; that tick then resends `[2]`, not `[1]`. -/
def retransmitCexTrace : List Step :=
  [Step.tick tickPhyOk, Step.tick tickPlain, Step.tick tickBrokerOk,
   Step.tick tickSubsOk,
   Step.msg { topic := "s-i", bytes := [], decodeOk := true, encodeResult := some [] },
   Step.tick (tickConn (some [1])),
   Step.tick tickPlain,
   Step.tick tickPhyOk, Step.tick tickPlain, Step.tick tickBrokerOk,
   Step.tick tickSubsOk,
   Step.msg { topic := "s-i", bytes := [], decodeOk := true, encodeResult := some [2] },
   Step.tick (tickConn (some []))]

/-- A session in the `Connected` state with empty buffers. -/
def mConnected : Machine :=
  { shadowMachine with state := State.Connected }

/-- A session in the `Connected` state holding the stored payload `[9]` with a
pending retransmission. -/
def mConnectedPending : Machine :=
  { mConnected with
    mqtt_data_buf := [9]
    mqtt_data_len := 1
    mqtt_data_request_retransmit := true }

/-- A session in the `Connected` state holding the stored payload `[7]` and a
nonzero reconciliation-request timestamp. -/
def mConnectedStored : Machine :=
  { mConnected with
    mqtt_data_buf := [7]
    mqtt_data_len := 1
    lastSyncRequestTickTime := 42 }

/-- A session in the `SubscribeMqttTopics` state with shadow topics absent. -/
def mSubs : Machine :=
  { noShadowMachine with state := State.SubscribeMqttTopics }

/-- A session in the `RequestLastValues` state. -/
def mReq : Machine :=
  { shadowMachine with state := State.RequestLastValues }

/-- `sendPropertiesToCloud` only touches the retransmission buffer and its
length: every other field of the machine is preserved. -/
theorem sendPropertiesToCloud_preserves (m : Machine) (e : Option (List Nat)) :
    (sendPropertiesToCloud m e).1.state = m.state ∧
    (sendPropertiesToCloud m e).1.mqtt_data_request_retransmit
      = m.mqtt_data_request_retransmit ∧
    (sendPropertiesToCloud m e).1.lastSyncRequestTickTime
      = m.lastSyncRequestTickTime ∧
    (sendPropertiesToCloud m e).1.shadowTopicOut = m.shadowTopicOut ∧
    (sendPropertiesToCloud m e).1.shadowTopicIn = m.shadowTopicIn ∧
    (sendPropertiesToCloud m e).1.dataTopicOut = m.dataTopicOut ∧
    (sendPropertiesToCloud m e).1.dataTopicIn = m.dataTopicIn := by
  cases e with
  | none => simp [sendPropertiesToCloud]
  | some data =>
      simp only [sendPropertiesToCloud]
      split <;> simp

/-- Claim C2: on a tick taken in the `Connected` state in which the transport
reports disconnected, the state machine transitions to `ConnectPhy`, stops the
transport, sets the retransmit-pending flag to `true`, and emits the
`DISCONNECT` event exactly once. -/
theorem connected_disconnect_transition (m : Machine) (i : TickInput)
    (h1 : m.state = State.Connected) (h2 : i.mqttConnected = false) :
    (update m i).1.state = State.ConnectPhy ∧
    (update m i).2.mqttStopCalls = 1 ∧
    (update m i).1.mqtt_data_request_retransmit = true ∧
    (update m i).2.events = [ArduinoIoTCloudEvent.DISCONNECT] := by
  simp [update, h1, handle_Connected, h2]

/-- Witness for claim C2 at a concrete connected session and disconnected
tick. -/
theorem connected_disconnect_transition_witness :
    (update mConnected tickPlain).1.state = State.ConnectPhy ∧
    (update mConnected tickPlain).2.mqttStopCalls = 1 ∧
    (update mConnected tickPlain).1.mqtt_data_request_retransmit = true ∧
    (update mConnected tickPlain).2.events = [ArduinoIoTCloudEvent.DISCONNECT] :=
  connected_disconnect_transition mConnected tickPlain rfl rfl

/-- Claim C7: a tick in the `RequestLastValues` state transmits either nothing
or exactly the fixed 22-byte reconciliation request on the shadow-out topic,
and that byte sequence is the compact binary encoding of the one-element array
holding the two-entry map with entries `0 : "r:m"` and `3 : "getLastValues"`. -/
theorem request_last_value_payload (m : Machine) (i : TickInput)
    (h : m.state = State.RequestLastValues) :
    (update m i).2.transmissions =
      (if TIMEOUT_FOR_LASTVALUES_SYNC
          < ulSub i.millis m.lastSyncRequestTickTime then
        [(m.shadowTopicOut, CBOR_REQUEST_LAST_VALUE_MSG)]
      else []) ∧
    CBOR_REQUEST_LAST_VALUE_MSG = specReconciliationRequestEncoding ∧
    CBOR_REQUEST_LAST_VALUE_MSG.length = 22 := by
  refine ⟨?_, by decide, by decide⟩
  simp only [update, h, handle_RequestLastValues, requestLastValue]
  split <;> simp

/-- Witness for claim C7 at a concrete session whose request timer has
elapsed. -/
theorem request_last_value_payload_witness :
    (update mReq (tickAt 20000)).2.transmissions =
      (if TIMEOUT_FOR_LASTVALUES_SYNC
          < ulSub (tickAt 20000).millis mReq.lastSyncRequestTickTime then
        [(mReq.shadowTopicOut, CBOR_REQUEST_LAST_VALUE_MSG)]
      else []) ∧
    CBOR_REQUEST_LAST_VALUE_MSG = specReconciliationRequestEncoding ∧
    CBOR_REQUEST_LAST_VALUE_MSG.length = 22 :=
  request_last_value_payload mReq (tickAt 20000) rfl

/-- Claim C8: when the property encode succeeds with zero encoded bytes,
`sendPropertiesToCloud` performs no publish call and leaves the stored
retransmit payload and length unchanged. -/
theorem send_properties_zero_length (m : Machine) (bs : List Nat)
    (h : bs.length = 0) :
    sendPropertiesToCloud m (some bs) = (m, []) := by
  simp [sendPropertiesToCloud, h]

/-- Witness for claim C8 at a concrete session and an empty encode result. -/
theorem send_properties_zero_length_witness :
    sendPropertiesToCloud mConnected (some []) = (mConnected, []) :=
  send_properties_zero_length mConnected [] rfl

/-- Claim C10: a message arriving on the shadow-in topic while the machine is
not in `RequestLastValues` is ignored as a shadow update: no full-snapshot
decode is performed, no event is emitted, nothing is transmitted, and the
machine (in particular its connection state) is unchanged. -/
theorem shadow_message_ignored_outside_request (m : Machine) (x : MsgInput)
    (h1 : m.state ≠ State.RequestLastValues) (h2 : x.topic = m.shadowTopicIn) :
    (handleMessage m x).1 = m ∧
    (handleMessage m x).2.events = [] ∧
    true ∉ (handleMessage m x).2.decodes ∧
    (handleMessage m x).2.transmissions = [] := by
  have hcond : ¬ (m.shadowTopicIn = x.topic ∧ m.state = State.RequestLastValues) :=
    fun hc => h1 hc.2
  refine ⟨?_, ?_, ?_, ?_⟩ <;> simp only [handleMessage, if_neg hcond] <;>
    split <;> simp

/-- Witness for claim C10 at a concrete connected session receiving a
shadow-in message. -/
theorem shadow_message_ignored_outside_request_witness :
    (handleMessage mConnected
        { topic := "s-i", bytes := [1], decodeOk := true, encodeResult := none }).1
      = mConnected ∧
    (handleMessage mConnected
        { topic := "s-i", bytes := [1], decodeOk := true, encodeResult := none }).2.events
      = [] ∧
    true ∉ (handleMessage mConnected
        { topic := "s-i", bytes := [1], decodeOk := true, encodeResult := none }).2.decodes ∧
    (handleMessage mConnected
        { topic := "s-i", bytes := [1], decodeOk := true, encodeResult := none }).2.transmissions
      = [] :=
  shadow_message_ignored_outside_request mConnected
    { topic := "s-i", bytes := [1], decodeOk := true, encodeResult := none }
    (by decide) rfl

/-- Counterexample to claim C6: in a session driven from its initial state to
`RequestLastValues`, a shadow-in message whose decoding fails still moves the
connection state to `Connected`; the message callback does not inspect the
decode result, so the state is altered by a malformed payload. -/
theorem decode_failure_state_change_cex :
    (run shadowMachine reconnectPrefix).1.state = State.RequestLastValues ∧
    malformedShadowMsg.decodeOk = false ∧
    (run shadowMachine (reconnectPrefix ++ [Step.msg malformedShadowMsg])).1.state
      = State.Connected := by
  decide

/-- Claim C6 (amended): handling a message whose decoding fails leaves the
machine entirely unchanged, except when the message arrives on the shadow-in
topic while the machine is in `RequestLastValues`; in that case the machine
moves to `Connected` regardless of the decode outcome. -/
theorem decode_failure_state_amended (m : Machine) (x : MsgInput)
    (hfail : x.decodeOk = false) :
    (handleMessage m x).1 =
      (if m.shadowTopicIn = x.topic ∧ m.state = State.RequestLastValues then
        { (sendPropertiesToCloud m x.encodeResult).1 with state := State.Connected }
      else m) := by
  simp only [handleMessage]
  split <;> rfl

/-- Witness for the amended claim C6 at a concrete session in `ConnectPhy`
receiving a malformed shadow-in message. -/
theorem decode_failure_state_amended_witness :
    (handleMessage shadowMachine malformedShadowMsg).1 =
      (if shadowMachine.shadowTopicIn = malformedShadowMsg.topic ∧
          shadowMachine.state = State.RequestLastValues then
        { (sendPropertiesToCloud shadowMachine malformedShadowMsg.encodeResult).1 with
            state := State.Connected }
      else shadowMachine) :=
  decode_failure_state_amended shadowMachine malformedShadowMsg rfl

/-- Claim C4: in the `RequestLastValues` state a reconciliation request is
transmitted on a tick exactly when the 32-bit difference between the current
`millis` value and `lastSyncRequestTickTime` exceeds the fixed
10000-millisecond interval, in which case `lastSyncRequestTickTime` is updated
to the current `millis`; consequently, when the timer fires on a first tick, a
second tick of the reconciliation-request path at most the interval later
transmits nothing, so the two ticks produce only one wire transmission. -/
theorem request_last_values_timer (m mb : Machine) (i1 i2 ib : TickInput)
    (h : m.state = State.RequestLastValues)
    (hfire : TIMEOUT_FOR_LASTVALUES_SYNC
      < ulSub i1.millis m.lastSyncRequestTickTime)
    (hle : i1.millis ≤ i2.millis)
    (hgap : i2.millis - i1.millis ≤ TIMEOUT_FOR_LASTVALUES_SYNC)
    (hb : i2.millis < 4294967296)
    (hstb : mb.state = State.RequestLastValues) :
    (update m i1).2.transmissions
      = [(m.shadowTopicOut, CBOR_REQUEST_LAST_VALUE_MSG)] ∧
    (update m i1).1.lastSyncRequestTickTime = i1.millis ∧
    (update (update m i1).1 i2).2.transmissions = [] ∧
    (update (update m i1).1 i2).1.lastSyncRequestTickTime = i1.millis ∧
    (update mb ib).2.transmissions
      = (if TIMEOUT_FOR_LASTVALUES_SYNC
            < ulSub ib.millis mb.lastSyncRequestTickTime then
          [(mb.shadowTopicOut, CBOR_REQUEST_LAST_VALUE_MSG)]
        else []) ∧
    (update mb ib).1.lastSyncRequestTickTime
      = (if TIMEOUT_FOR_LASTVALUES_SYNC
            < ulSub ib.millis mb.lastSyncRequestTickTime then
          ib.millis
        else mb.lastSyncRequestTickTime) := by
  have hnofire : ¬ TIMEOUT_FOR_LASTVALUES_SYNC < ulSub i2.millis i1.millis := by
    have hub : ulSub i2.millis i1.millis = i2.millis - i1.millis := by
      unfold ulSub
      omega
    rw [hub]
    unfold TIMEOUT_FOR_LASTVALUES_SYNC
    unfold TIMEOUT_FOR_LASTVALUES_SYNC at hgap
    omega
  refine ⟨?_, ?_, ?_, ?_, ?_, ?_⟩
  · simp [update, h, handle_RequestLastValues, if_pos hfire, requestLastValue]
  · simp [update, h, handle_RequestLastValues, if_pos hfire]
  · simp [update, h, handle_RequestLastValues, if_pos hfire, if_neg hnofire]
  · simp [update, h, handle_RequestLastValues, if_pos hfire, if_neg hnofire]
  · simp only [update, hstb, handle_RequestLastValues, requestLastValue]
    split <;> simp
  · simp only [update, hstb, handle_RequestLastValues, requestLastValue]
    split <;> simp

/-- Witness for claim C4: the timer fires at `millis = 20000` with a zero
timestamp, a second tick 5000 ms later transmits nothing, and a tick taken at
`millis = 5` transmits nothing either. -/
theorem request_last_values_timer_witness :
    (update mReq (tickAt 20000)).2.transmissions
      = [(mReq.shadowTopicOut, CBOR_REQUEST_LAST_VALUE_MSG)] ∧
    (update mReq (tickAt 20000)).1.lastSyncRequestTickTime
      = (tickAt 20000).millis ∧
    (update (update mReq (tickAt 20000)).1 (tickAt 25000)).2.transmissions = [] ∧
    (update (update mReq (tickAt 20000)).1 (tickAt 25000)).1.lastSyncRequestTickTime
      = (tickAt 20000).millis ∧
    (update mReq (tickAt 5)).2.transmissions
      = (if TIMEOUT_FOR_LASTVALUES_SYNC
            < ulSub (tickAt 5).millis mReq.lastSyncRequestTickTime then
          [(mReq.shadowTopicOut, CBOR_REQUEST_LAST_VALUE_MSG)]
        else []) ∧
    (update mReq (tickAt 5)).1.lastSyncRequestTickTime
      = (if TIMEOUT_FOR_LASTVALUES_SYNC
            < ulSub (tickAt 5).millis mReq.lastSyncRequestTickTime then
          (tickAt 5).millis
        else mReq.lastSyncRequestTickTime) :=
  request_last_values_timer mReq mReq (tickAt 20000) (tickAt 25000) (tickAt 5)
    rfl (by decide) (by decide) (by decide) (by decide) rfl

/-- Counterexample to claim C5: starting from the initial machine (shadow
topics absent), the session reaches `Connected` without ever storing a payload
and then detects a disconnection; the resulting reachable state has the
retransmit-pending flag `true` while the buffered length is `0`, so `pending`
is not true only while `length > 0`. -/
theorem retransmit_pending_without_payload_cex :
    (run noShadowMachine pendingNoPayloadTrace).1.mqtt_data_request_retransmit
      = true ∧
    (run noShadowMachine pendingNoPayloadTrace).1.mqtt_data_len = 0 := by
  decide

/-- Claim C5 (amended): the retransmit-pending flag is set `true` exactly when
a tick taken in `Connected` observes the transport disconnected (even when the
buffered length is `0`), is cleared exactly when a connected `Connected` tick
finds it set with a positive buffered length (the resend of the buffered
payload), is otherwise unchanged by ticks, and is never changed by the message
callback. -/
theorem retransmit_pending_characterization (m : Machine) (i : TickInput)
    (x : MsgInput) :
    (update m i).1.mqtt_data_request_retransmit
      = (if m.state = State.Connected then
          (if i.mqttConnected = false then true
           else if m.mqtt_data_request_retransmit = true ∧ 0 < m.mqtt_data_len then
             false
           else m.mqtt_data_request_retransmit)
        else m.mqtt_data_request_retransmit) ∧
    (handleMessage m x).1.mqtt_data_request_retransmit
      = m.mqtt_data_request_retransmit := by
  constructor
  · obtain ⟨st, ls, buf, len, rt, so, si, dO, dI⟩ := m
    obtain ⟨p, c, sd, ss, mc, ms, er⟩ := i
    cases st <;> cases mc <;> cases rt <;> cases er <;>
      simp [update, handle_ConnectPhy, handle_SyncTime, handle_ConnectMqttBroker,
        handle_SubscribeMqttTopics, handle_RequestLastValues, handle_Connected,
        sendPropertiesToCloud] <;>
      (try split) <;> (try split) <;> simp_all
  · simp only [handleMessage]
    split
    · simpa using (sendPropertiesToCloud_preserves m x.encodeResult).2.1
    · rfl

/-- Counterexample to claim C9: a session reaching `Connected` through the
reconciliation handshake (request sent at `millis = 20000`), storing and
transmitting the payload `[7]`, and then detecting a disconnection restarts
from `ConnectPhy` with the retransmit record and the sync timer NOT reset:
the buffered payload, its length, and `lastSyncRequestTickTime` are all
preserved (and the pending flag is set), rather than being reset to
empty/zero. -/
theorem session_restart_no_reset_cex :
    (run shadowMachine restartNoResetTrace).1.state = State.ConnectPhy ∧
    (run shadowMachine restartNoResetTrace).1.mqtt_data_request_retransmit
      = true ∧
    (run shadowMachine restartNoResetTrace).1.mqtt_data_buf = [7] ∧
    (run shadowMachine restartNoResetTrace).1.mqtt_data_len = 1 ∧
    (run shadowMachine restartNoResetTrace).1.lastSyncRequestTickTime = 20000 := by
  decide

/-- Claim C9 (amended): when the session restarts from `ConnectPhy` after a
disconnection is detected in the `Connected` state, the retransmit record is
NOT reset: the buffered payload and its length are preserved and the pending
flag is set to `true`, and the sync timer `lastSyncRequestTickTime` is also
preserved; these fields are empty/zero only as initialized by the
constructor. -/
theorem session_restart_preserves_buffers (m : Machine) (i : TickInput)
    (h1 : m.state = State.Connected) (h2 : i.mqttConnected = false) :
    (update m i).1.state = State.ConnectPhy ∧
    (update m i).1.mqtt_data_buf = m.mqtt_data_buf ∧
    (update m i).1.mqtt_data_len = m.mqtt_data_len ∧
    (update m i).1.mqtt_data_request_retransmit = true ∧
    (update m i).1.lastSyncRequestTickTime = m.lastSyncRequestTickTime ∧
    (initialMachine m.shadowTopicOut m.shadowTopicIn m.dataTopicOut
        m.dataTopicIn).mqtt_data_buf = [] ∧
    (initialMachine m.shadowTopicOut m.shadowTopicIn m.dataTopicOut
        m.dataTopicIn).mqtt_data_len = 0 ∧
    (initialMachine m.shadowTopicOut m.shadowTopicIn m.dataTopicOut
        m.dataTopicIn).mqtt_data_request_retransmit = false ∧
    (initialMachine m.shadowTopicOut m.shadowTopicIn m.dataTopicOut
        m.dataTopicIn).lastSyncRequestTickTime = 0 := by
  simp [update, h1, handle_Connected, h2, initialMachine]

/-- Witness for the amended claim C9 at a concrete connected session holding a
stored payload and a nonzero request timestamp. -/
theorem session_restart_preserves_buffers_witness :
    (update mConnectedStored tickPlain).1.state = State.ConnectPhy ∧
    (update mConnectedStored tickPlain).1.mqtt_data_buf
      = mConnectedStored.mqtt_data_buf ∧
    (update mConnectedStored tickPlain).1.mqtt_data_len
      = mConnectedStored.mqtt_data_len ∧
    (update mConnectedStored tickPlain).1.mqtt_data_request_retransmit = true ∧
    (update mConnectedStored tickPlain).1.lastSyncRequestTickTime
      = mConnectedStored.lastSyncRequestTickTime ∧
    (initialMachine mConnectedStored.shadowTopicOut mConnectedStored.shadowTopicIn
        mConnectedStored.dataTopicOut mConnectedStored.dataTopicIn).mqtt_data_buf
      = [] ∧
    (initialMachine mConnectedStored.shadowTopicOut mConnectedStored.shadowTopicIn
        mConnectedStored.dataTopicOut mConnectedStored.dataTopicIn).mqtt_data_len
      = 0 ∧
    (initialMachine mConnectedStored.shadowTopicOut mConnectedStored.shadowTopicIn
        mConnectedStored.dataTopicOut mConnectedStored.dataTopicIn).mqtt_data_request_retransmit
      = false ∧
    (initialMachine mConnectedStored.shadowTopicOut mConnectedStored.shadowTopicIn
        mConnectedStored.dataTopicOut mConnectedStored.dataTopicIn).lastSyncRequestTickTime
      = 0 :=
  session_restart_preserves_buffers mConnectedStored tickPlain rfl rfl

/-- A connected tick leaves the machine in the `Connected` state. -/
theorem connected_tick_state (m : Machine) (i : TickInput)
    (h : m.state = State.Connected) (hc : i.mqttConnected = true) :
    (update m i).1.state = State.Connected := by
  have hcf : ¬ i.mqttConnected = false := by simp [hc]
  simp [update, h, handle_Connected, if_neg hcf]

/-- A connected tick with no pending retransmission transmits exactly what
`sendPropertiesToCloud` produces. -/
theorem connected_tick_no_pending (m : Machine) (i : TickInput)
    (hs : m.state = State.Connected) (hc : i.mqttConnected = true)
    (hr : m.mqtt_data_request_retransmit = false) :
    (update m i).2.transmissions = (sendPropertiesToCloud m i.encodeResult).2 := by
  have hcf : ¬ i.mqttConnected = false := by simp [hc]
  have hcr : ¬ (m.mqtt_data_request_retransmit = true ∧ 0 < m.mqtt_data_len) := by
    simp [hr]
  simp [update, hs, handle_Connected, if_neg hcf, if_neg hcr]

/-- Counterexample to claim C1: an execution from the initial session in which
the payload `[1]` is encoded and transmitted while `Connected` (step 6), a
transport disconnection is then detected (step 7, `DISCONNECT` emitted,
retransmit marked pending), and the session reconnects through the
reconciliation handshake; the reconciliation response (step 12) triggers a new
encode of `[2]`, which is transmitted and overwrites the retransmission buffer
before the first `Connected` tick.  That first `Connected` tick (step 13)
resends `[2]`, not the lost payload `[1]`, and the newly encoded payload was
transmitted before the resend — refuting both the "resends exactly P" and the
"before any newly-encoded payload" parts of the claim. -/
theorem retransmission_not_exact_payload_cex :
    (run shadowMachine retransmitCexTrace).2 =
      [emptyOutput, emptyOutput, emptyOutput,
       { events := [ArduinoIoTCloudEvent.CONNECT], transmissions := []
         decodes := [], mqttStopCalls := 0 },
       { events := [ArduinoIoTCloudEvent.SYNC], transmissions := []
         decodes := [true], mqttStopCalls := 0 },
       { events := [], transmissions := [("d-o", [1])]
         decodes := [], mqttStopCalls := 0 },
       { events := [ArduinoIoTCloudEvent.DISCONNECT], transmissions := []
         decodes := [], mqttStopCalls := 1 },
       emptyOutput, emptyOutput, emptyOutput,
       { events := [ArduinoIoTCloudEvent.CONNECT], transmissions := []
         decodes := [], mqttStopCalls := 0 },
       { events := [ArduinoIoTCloudEvent.SYNC], transmissions := [("d-o", [2])]
         decodes := [true], mqttStopCalls := 0 },
       { events := [], transmissions := [("d-o", [2])]
         decodes := [], mqttStopCalls := 0 }] ∧
    (run shadowMachine (retransmitCexTrace.take 12)).1.state = State.Connected ∧
    (run shadowMachine (retransmitCexTrace.take 12)).1.mqtt_data_request_retransmit
      = true ∧
    ("d-o", [1]) ∈
      ((run shadowMachine retransmitCexTrace).2.getD 5 emptyOutput).transmissions ∧
    ("d-o", [1]) ∉
      ((run shadowMachine retransmitCexTrace).2.getD 12 emptyOutput).transmissions := by
  decide

/-- Claim C1 (amended): provided no payload is encoded and transmitted between
the detected disconnection and the first `Connected` tick (so the buffered
payload is still the lost payload `P` and the pending flag is still set when
that tick runs), the first `Connected` tick resends exactly `P` once, before
any payload newly encoded on that tick, and clears the pending flag, so the
following `Connected` tick transmits only newly-encoded payloads. -/
theorem retransmission_first_connected_tick_amended (m : Machine)
    (i i2 : TickInput) (P : List Nat)
    (hst : m.state = State.Connected) (hconn : i.mqttConnected = true)
    (hpend : m.mqtt_data_request_retransmit = true)
    (hbuf : m.mqtt_data_buf = P) (hlen : m.mqtt_data_len = P.length)
    (hP : P ≠ []) (hconn2 : i2.mqttConnected = true) :
    (update m i).2.transmissions =
      (m.dataTopicOut, P) ::
        (sendPropertiesToCloud { m with mqtt_data_request_retransmit := false }
          i.encodeResult).2 ∧
    (update m i).1.mqtt_data_request_retransmit = false ∧
    (update (update m i).1 i2).2.transmissions =
      (sendPropertiesToCloud (update m i).1 i2.encodeResult).2 := by
  have hcf : ¬ i.mqttConnected = false := by simp [hconn]
  have hlen0 : 0 < m.mqtt_data_len := by
    rw [hlen]
    exact List.length_pos.mpr hP
  have hcr : m.mqtt_data_request_retransmit = true ∧ 0 < m.mqtt_data_len :=
    ⟨hpend, hlen0⟩
  have hret : (update m i).1.mqtt_data_request_retransmit = false := by
    simp only [update, hst, handle_Connected, if_neg hcf, if_pos hcr]
    simpa [hst] using
      (sendPropertiesToCloud_preserves
        { m with mqtt_data_request_retransmit := false } i.encodeResult).2.1
  refine ⟨?_, hret, ?_⟩
  · simp only [update, hst, handle_Connected, if_neg hcf, if_pos hcr]
    simp [hbuf, hlen]
  · exact connected_tick_no_pending (update m i).1 i2
      (connected_tick_state m i hst hconn) hconn2 hret

/-- Witness for the amended claim C1 at a concrete connected session holding
the pending payload `[9]`, whose next two connected ticks encode nothing new. -/
theorem retransmission_first_connected_tick_amended_witness :
    (update mConnectedPending (tickConn (some []))).2.transmissions =
      (mConnectedPending.dataTopicOut, [9]) ::
        (sendPropertiesToCloud
          { mConnectedPending with mqtt_data_request_retransmit := false }
          (tickConn (some [])).encodeResult).2 ∧
    (update mConnectedPending (tickConn (some []))).1.mqtt_data_request_retransmit
      = false ∧
    (update (update mConnectedPending (tickConn (some []))).1
        (tickConn (some []))).2.transmissions =
      (sendPropertiesToCloud (update mConnectedPending (tickConn (some []))).1
        (tickConn (some [])).encodeResult).2 :=
  retransmission_first_connected_tick_amended mConnectedPending
    (tickConn (some [])) (tickConn (some [])) [9] rfl rfl rfl rfl rfl
    (by decide) rfl

/-- When the shadow-in topic is empty and the machine is not in
`RequestLastValues`, one step preserves both facts and emits no `SYNC`
event. -/
theorem step_shadow_absent (m : Machine) (s : Step)
    (h1 : m.shadowTopicIn = "") (h2 : m.state ≠ State.RequestLastValues) :
    (step m s).1.shadowTopicIn = "" ∧
    (step m s).1.state ≠ State.RequestLastValues ∧
    (step m s).2.events.count ArduinoIoTCloudEvent.SYNC = 0 := by
  cases s with
  | tick i =>
      obtain ⟨st, ls, buf, len, rt, so, si, dO, dI⟩ := m
      obtain ⟨p, c, sd, ss, mc, ms, er⟩ := i
      cases st <;> cases mc <;> cases er <;>
        simp_all [step, update, handle_ConnectPhy, handle_SyncTime,
          handle_ConnectMqttBroker, handle_SubscribeMqttTopics,
          handle_RequestLastValues, handle_Connected,
          sendPropertiesToCloud, emptyOutput] <;>
        (try split) <;> (try split) <;> simp_all
  | msg x =>
      have hcond : ¬ (m.shadowTopicIn = x.topic ∧ m.state = State.RequestLastValues) :=
        fun hc => h2 hc.2
      refine ⟨?_, ?_, ?_⟩ <;> simp only [step, handleMessage, if_neg hcond] <;>
        simp [h1, h2]

/-- When the shadow-in topic is empty and the machine is not in
`RequestLastValues`, no execution continuing from it ever emits a `SYNC`
event. -/
theorem run_shadow_absent (L : List Step) : ∀ m : Machine,
    m.shadowTopicIn = "" → m.state ≠ State.RequestLastValues →
    countSync (run m L).2 = 0 := by
  induction L with
  | nil =>
      intro m h1 h2
      simp [run, countSync]
  | cons s rest ih =>
      intro m h1 h2
      obtain ⟨g1, g2, g3⟩ := step_shadow_absent m s h1 h2
      simp only [run, countSync]
      rw [g3, ih (step m s).1 g1 g2]

/-- Claim C3: a tick in `SubscribeMqttTopics` on which all required
subscriptions succeed (data-in, plus shadow-in when the shadow-in topic is
non-empty) emits exactly one `CONNECT` event and moves to `RequestLastValues`
when the shadow-in topic is non-empty, else to `Connected`; and when the
shadow topic is absent, no execution from any non-`RequestLastValues` state
ever emits a `SYNC` event. -/
theorem subscribe_success_connect_event (m m0 : Machine) (i : TickInput)
    (L : List Step)
    (h1 : m.state = State.SubscribeMqttTopics)
    (h2 : i.subscribeDataInOk = true)
    (h3 : m.shadowTopicIn ≠ "" → i.subscribeShadowInOk = true)
    (h4 : m0.shadowTopicIn = "")
    (h5 : m0.state ≠ State.RequestLastValues) :
    (update m i).2.events = [ArduinoIoTCloudEvent.CONNECT] ∧
    (update m i).1.state =
      (if m.shadowTopicIn = "" then State.Connected else State.RequestLastValues) ∧
    countSync (run m0 L).2 = 0 := by
  have hsd : ¬ i.subscribeDataInOk = false := by simp [h2]
  refine ⟨?_, ?_, run_shadow_absent L m0 h4 h5⟩ <;>
  · by_cases hsh : m.shadowTopicIn = ""
    · simp [update, h1, handle_SubscribeMqttTopics, hsd, hsh, emptyOutput]
    · have hss := h3 hsh
      have hno : ¬ (m.shadowTopicIn ≠ "" ∧ i.subscribeShadowInOk = false) := by
        simp [hss]
      simp [update, h1, handle_SubscribeMqttTopics, hsd, hsh, hno, hss, emptyOutput]

/-- Witness for claim C3 at a concrete session with shadow topics absent:
one `CONNECT` event, direct transition to `Connected`, and an execution with
no `SYNC` event. -/
theorem subscribe_success_connect_event_witness :
    (update mSubs tickSubsOk).2.events = [ArduinoIoTCloudEvent.CONNECT] ∧
    (update mSubs tickSubsOk).1.state =
      (if mSubs.shadowTopicIn = "" then State.Connected
       else State.RequestLastValues) ∧
    countSync (run noShadowMachine [Step.tick tickPhyOk]).2 = 0 :=
  subscribe_success_connect_event mSubs noShadowMachine tickSubsOk
    [Step.tick tickPhyOk] rfl rfl (fun hc => absurd rfl hc) rfl (by decide)

end ArduinoIoTCloud
